import Mathlib

/-!
Shallow embedding of `src/miip_trip_calculator.py`, the trip cost
estimation engine (flights, bags, hotel, meals, rental, car service,
incidentals, contingency), together with theorems settling the frozen
claims about it.

Conventions of the embedding:
* Python `float` money amounts become `ℚ`; all the arithmetic the claims
  are about is exact decimal arithmetic, for which `ℚ` is faithful.
* Python `round(x, 2)` becomes `round2`, round-half-to-even at cents.
* `datetime.date` becomes `PyDate`; `date.toordinal()` becomes
  `toOrdinalNat` (proleptic Gregorian day count, 0001-01-01 = day 1) and
  `date.weekday()` becomes `pyWeekday` (Monday = 0).
* A Python dict used as a rate table becomes a `List (String × ℚ)` with
  `List.lookup`; `dict.get(k, d)` becomes `(table.lookup k).getD d`.
* A value whose extraction may raise (`float(o["price"]["grandTotal"])`
  inside `try/except`) becomes an `Option`; `none` models the skipped
  (exception) case.
-/

namespace Miip

/-! ### Dates (`datetime.date`) -/

/-- A calendar date, as the Python `datetime.date` (which only constructs
valid dates; validity is not re-checked here, matching its use in the source). -/
structure PyDate where
  year : ℕ
  month : ℕ
  day : ℕ
deriving DecidableEq, Repr

/-- Gregorian leap-year rule, as used by `datetime`. -/
def isLeapYear (y : ℕ) : Bool :=
  y % 4 == 0 && (y % 100 != 0 || y % 400 == 0)

/-- Number of days in a month of a given year. -/
def daysInMonth (y m : ℕ) : ℕ :=
  if m = 2 then (if isLeapYear y then 29 else 28)
  else if m = 4 ∨ m = 6 ∨ m = 9 ∨ m = 11 then 30
  else 31

/-- Days in year `y` strictly before month `m`. -/
def daysBeforeMonth (y m : ℕ) : ℕ :=
  (List.range (m - 1)).foldl (fun acc i => acc + daysInMonth y (i + 1)) 0

/-- `date.toordinal()`: day number in the proleptic Gregorian calendar,
with 0001-01-01 being day 1. -/
def toOrdinalNat (d : PyDate) : ℕ :=
  365 * (d.year - 1) + (d.year - 1) / 4 - (d.year - 1) / 100 + (d.year - 1) / 400
    + daysBeforeMonth d.year d.month + d.day

/-- `date.weekday()`: Monday = 0 … Sunday = 6. -/
def pyWeekday (d : PyDate) : ℕ :=
  (toOrdinalNat d - 1) % 7

/-! ### Holiday helpers (source lines 121–156) -/

/-- `nth_weekday_of_month(year, month, weekday, n)`: the `n`-th given
weekday of the month.  `offset = (weekday - first.weekday()) % 7` uses
Python `%`, whose result is non-negative; `Int.emod` with a positive
modulus has the same semantics. -/
def nth_weekday_of_month (year month weekday n : ℕ) : PyDate :=
  let first : PyDate := ⟨year, month, 1⟩
  let offset : ℕ := (((weekday : ℤ) - (pyWeekday first : ℤ)) % 7).toNat
  ⟨year, month, 1 + offset + 7 * (n - 1)⟩

/-- `last_weekday_of_month(year, month, weekday)`: the source computes the
first of the next month minus one day — which is `(year, month,
daysInMonth year month)` — and steps back `(last_day.weekday() - weekday)
% 7` days, which stays inside the month. -/
def last_weekday_of_month (year month weekday : ℕ) : PyDate :=
  let last_day : PyDate := ⟨year, month, daysInMonth year month⟩
  let offset : ℕ := (((pyWeekday last_day : ℤ) - (weekday : ℤ)) % 7).toNat
  ⟨year, month, daysInMonth year month - offset⟩

/-- `us_holidays_for_year(year)`: the eleven recognized holidays, computed
per calendar year (source lines 136–153; the Python `set` is modelled as a
list used only through membership). -/
def us_holidays_for_year (year : ℕ) : List PyDate :=
  let new_years : PyDate := ⟨year, 1, 1⟩
  let juneteenth : PyDate := ⟨year, 6, 19⟩
  let independence : PyDate := ⟨year, 7, 4⟩
  let veterans : PyDate := ⟨year, 11, 11⟩
  let christmas : PyDate := ⟨year, 12, 25⟩
  let mlk := nth_weekday_of_month year 1 0 3
  let presidents := nth_weekday_of_month year 2 0 3
  let memorial := last_weekday_of_month year 5 0
  let labor := nth_weekday_of_month year 9 0 1
  let columbus := nth_weekday_of_month year 10 0 2
  let thanksgiving := nth_weekday_of_month year 11 3 4
  [new_years, mlk, presidents, memorial, juneteenth, independence,
   labor, columbus, veterans, thanksgiving, christmas]

/-- `is_holiday(date_obj)` (source lines 155–156). -/
def is_holiday (d : PyDate) : Bool :=
  (us_holidays_for_year d.year).contains d

/-! ### Rounding

The Python `round(x, 2)` rounds to the nearest cent, ties to even.  On
the exact-cent amounts of the rate tables and the car-service arithmetic
— the places `round2` is used below — a half-cent tie can never arise and
the binary-float artifacts of `round` play no role, so round-half-to-even
over `ℚ` is the faithful model there.  (The one rounding the source
applies to a quantity that can hit a half-cent tie, the fare mean, is
discussed at `avg_flight_cost`.) -/

/-- Round a rational to the nearest integer, ties to even. -/
def rhe (q : ℚ) : ℤ :=
  let f := ⌊q⌋
  let r := q - f
  if r < 1 / 2 then f
  else if 1 / 2 < r then f + 1
  else if f % 2 = 0 then f else f + 1

/-- `round(x, 2)`: round to the nearest cent, ties to even. -/
def round2 (q : ℚ) : ℚ := (rhe (q * 100) : ℚ) / 100

/-! ### Constants and rate tables (source lines 36–115) -/

def AIRLINE_CODES : List (String × String) :=
  [("Delta", "DL"), ("Southwest", "WN"), ("JetBlue", "B6"), ("American", "AA")]

def DOMESTIC_BAG_FEE_BY_AIRLINE : List (String × ℚ) :=
  [("Southwest", 0), ("JetBlue", 70), ("Delta", 70), ("American", 70)]

/-- The known-airports set `US_AIRPORTS` (IATA codes). -/
def US_AIRPORTS : List String :=
  ["BOS", "MHT", "JFK", "LGA", "EWR", "PHL", "DCA", "IAD", "BWI", "CLT", "ATL", "MCO", "TPA",
   "MIA", "FLL", "ORD", "MDW", "DFW", "DAL", "IAH", "HOU", "DEN", "PHX", "LAS", "LAX", "SFO", "SEA",
   "HNL", "OGG", "LIH", "KOA",
   "SLC", "MSY", "SDF", "AUS"]

def HOTEL_BASE_RATE_BY_AIRPORT : List (String × ℚ) :=
  [("BOS", 260), ("JFK", 280), ("LGA", 270), ("EWR", 260),
   ("LAX", 260), ("SFO", 280), ("SEA", 250), ("DEN", 210),
   ("MCO", 210), ("TPA", 215), ("MIA", 260), ("CLT", 190),
   ("PHL", 210), ("ORD", 230), ("ATL", 210),
   ("BWI", 195),
   ("SLC", 200),
   ("DFW", 195),
   ("IAH", 190),
   ("AUS", 210),
   ("FLL", 230),
   ("IAD", 210),
   ("DCA", 240),
   ("MSY", 200),
   ("SDF", 175)]

def DEFAULT_HOTEL_NIGHTLY_RATE : ℚ := 190

def HERTZ_BASE_DAILY_BY_AIRPORT : List (String × ℚ) :=
  [("BOS", 70), ("MHT", 60), ("JFK", 75), ("LGA", 75), ("EWR", 72),
   ("TPA", 65), ("MCO", 65), ("MIA", 70), ("DEN", 68),
   ("SFO", 78), ("LAX", 78), ("SEA", 72),
   ("BWI", 62),
   ("SLC", 64),
   ("DFW", 60),
   ("IAH", 60),
   ("AUS", 62),
   ("FLL", 66),
   ("IAD", 64),
   ("DCA", 66),
   ("MSY", 60),
   ("SDF", 55)]

def HERTZ_SUV_UPLIFT : ℚ := 0.15
def HERTZ_MEMBERSHIP_DISCOUNT : ℚ := 0.12

def MEALS_PER_DAY : ℚ := 100
def CONTINGENCY_RATE : ℚ := 0.075

def GAS_COST : ℚ := 60
def TOLLS_COST : ℚ := 35
def PARKING_COST : ℚ := 50
def AIRPORT_SHUTTLE_TIPS : ℚ := 10
def HOUSEKEEPING_PER_NIGHT : ℚ := 10

/-- Car service contract rates, one-way, by airport then by tier label. -/
def CAR_SERVICE_RATES_ONE_WAY : List (String × List (String × ℚ)) :=
  [("BOS", [("1-3", 161.76), ("4-5", 229.12), ("6-14", 295)]),
   ("MHT", [("1-3", 97.19), ("4-5", 184.76), ("6-14", 228.54)])]

def CAR_SERVICE_HOLIDAY_SURCHARGE : ℚ := 25

def CAR_SERVICE_CITIES : List String := ["Nashua, NH", "Methuen, MA", "Lawrence, MA"]

/-! ### Rate lookups (source lines 206–214) -/

/-- The Python `str.upper()` (the program only feeds it ASCII codes).
Written over the character list so that it reduces structurally. -/
def pyUpper (s : String) : String := ⟨s.data.map Char.toUpper⟩

/-- The Python `str.strip()`: drop leading and trailing whitespace.  The
source applies it to the destination-airport text input (line 358); it is
also needed to state what the spec asserts about key normalization. -/
def pyStrip (s : String) : String :=
  ⟨((s.data.dropWhile Char.isWhitespace).reverse.dropWhile Char.isWhitespace).reverse⟩

/-- `is_domestic(origin, dest)`: both endpoints in the known-airports set. -/
def is_domestic (origin dest : String) : Bool :=
  US_AIRPORTS.contains (pyUpper origin) && US_AIRPORTS.contains (pyUpper dest)

/-- `hotel_rate(dest)`: table lookup on the uppercased key, defaulting. -/
def hotel_rate (dest : String) : ℚ :=
  (HOTEL_BASE_RATE_BY_AIRPORT.lookup (pyUpper dest)).getD DEFAULT_HOTEL_NIGHTLY_RATE

/-- `hertz_rate(dest)`: base daily rate (default 80) with SUV uplift and
membership discount, rounded to cents. -/
def hertz_rate (dest : String) : ℚ :=
  let base := (HERTZ_BASE_DAILY_BY_AIRPORT.lookup (pyUpper dest)).getD 80
  round2 (base * (1 + HERTZ_SUV_UPLIFT) * (1 - HERTZ_MEMBERSHIP_DISCOUNT))

/-! ### Flight fare resolution (`avg_flight_cost`, source lines 216–269)

The network fetch itself (lines 226–240, returning `(None, "error")` when
the upstream call raises) is external I/O; the pure decision logic below
is everything after a successful fetch, as a function of the returned
offer list.  The price field of an offer is `Option ℚ`: `none` models a
`grandTotal` whose `float(...)` extraction raises (the offer is skipped),
`some p` a price that parses to the float `p`. -/

/-- One flight offer as the resolver consumes it: the parsed price (or
`none` when extraction raises) and the two validating-carrier fields the
source inspects. -/
structure Offer where
  price : Option ℚ
  validatingAirlineCodes : Option (List String) := none
  validatingAirlineCode : Option String := none
deriving DecidableEq, Repr

/-- `o.get("validatingAirlineCodes") or o.get("validatingAirlineCode")`:
Python `or` falls through on `None` and on empty (falsy) values; the
result is either a list of codes or a single code string, or nothing. -/
def validatingOf (o : Offer) : Option (List String ⊕ String) :=
  let fallback :=
    match o.validatingAirlineCode with
    | some s => if s.isEmpty then none else some (Sum.inr s)
    | none => none
  match o.validatingAirlineCodes with
  | some l => if l.isEmpty then fallback else some (Sum.inl l)
  | none => fallback

/-- Whether an offer counts for the preferred-carrier pass: the guard
`if preferred_code:` (truthy) followed by the `isinstance` dispatch on the
validating field (source lines 256–261). -/
def offerMatchesPreferred (preferred_code : Option String) (o : Offer) : Bool :=
  match preferred_code with
  | none => false
  | some code =>
    if code.isEmpty then false
    else
      match validatingOf o with
      | some (Sum.inl l) => l.contains code
      | some (Sum.inr s) => s == code
      | none => false

/-- The loop of lines 248–261: in encounter order, append each parsable
price to `all_prices`, and also to `preferred_prices` when the offer
matches the preferred carrier; unparsable offers are skipped entirely. -/
def collectPrices (preferred_code : Option String) : List Offer → List ℚ × List ℚ
  | [] => ([], [])
  | o :: rest =>
    match o.price with
    | none => collectPrices preferred_code rest
    | some p =>
      (p :: (collectPrices preferred_code rest).1,
       if offerMatchesPreferred preferred_code o then p :: (collectPrices preferred_code rest).2
       else (collectPrices preferred_code rest).2)

/-- `statistics.mean`: arithmetic mean (callers only apply it to nonempty
lists, where Python `mean` would raise on an empty one). -/
def qmean (l : List ℚ) : ℚ := l.sum / l.length

/-- `avg_flight_cost` after a successful fetch (source lines 242–269):
returns the average price and a status tag among `"preferred"`,
`"fallback_all"`, `"none"`.

The source wraps the returned mean in `round(·, 2)` (lines 264 and 267).
That call acts on an IEEE double: at a half-cent tie its direction is
decided by the binary representation of the computed mean, not by the
decimal digits — `round(mean([-0.01, -0.02]), 2)` is `-0.01` because the
double mean is minutely below the decimal tie — so no function on exact
rationals reproduces it; cent-rounding over `ℚ` is faithful only away
from such ties.  The price is therefore modelled as the exact arithmetic
mean of the pass, the quantity the trailing rounding approximates to
within half a cent; every statement proved about a concrete price below
is at inputs where the double pipeline is exact. -/
def avg_flight_cost (offers : List Offer) (preferred_airline : String) :
    Option ℚ × String :=
  let preferred_code := AIRLINE_CODES.lookup preferred_airline
  if offers.isEmpty then (none, "none")
  else
    let all_prices := (collectPrices preferred_code offers).1
    let preferred_prices := (collectPrices preferred_code offers).2
    if !preferred_prices.isEmpty then (some (qmean preferred_prices), "preferred")
    else if !all_prices.isEmpty then (some (qmean all_prices), "fallback_all")
    else (none, "none")

/-- Modelled from the spec: a "usable" price "parses to a non-negative
float" — the prices of an offer list that parse and are non-negative, in
encounter order.  (The source applies no non-negativity check; this
definition exists to state that notion of the spec against it.) -/
def usable_prices_spec (offers : List Offer) : List ℚ :=
  offers.filterMap fun o =>
    match o.price with
    | some p => if 0 ≤ p then some p else none
    | none => none

/-! ### Car service (source lines 275–339) -/

/-- `car_service_vehicle_tier(travelers)`: the traveler-count band. -/
def car_service_vehicle_tier (travelers : ℕ) : Option String :=
  if 1 ≤ travelers ∧ travelers ≤ 3 then some "1-3"
  else if 4 ≤ travelers ∧ travelers ≤ 5 then some "4-5"
  else if 6 ≤ travelers ∧ travelers ≤ 14 then some "6-14"
  else none

/-- The eight-component result tuple of `estimate_car_service_total`
(named as in its docstring, lines 303–304). -/
structure CarServiceResult where
  total : ℚ
  outbound_tier : String
  outbound_one_way : ℚ
  return_one_way : ℚ
  return_total : ℚ
  dep_is_holiday : Bool
  ret_is_holiday : Bool
  return_tier : String
deriving DecidableEq, Repr

/-- `estimate_car_service_total` (source lines 284–339).  The two dict
subscripts `CAR_SERVICE_RATES_ONE_WAY[airport][tier]` are guarded by the
membership / tier checks, so the `getD 0` defaults are never taken.
`include_service` stands for the flag the source calls `include` (a Lean keyword). -/
def estimate_car_service_total (departure_airport : String) (travelers : ℕ)
    (include_service : Bool) (city_choice : Option String)
    (dep_date ret_date : PyDate) (individual_return_home : Bool) : CarServiceResult :=
  if include_service = false then ⟨0, "n/a", 0, 0, 0, false, false, "n/a"⟩
  else
    let airport := pyUpper departure_airport
    match CAR_SERVICE_RATES_ONE_WAY.lookup airport with
    | none => ⟨0, "unsupported-airport", 0, 0, 0, false, false, "n/a"⟩
    | some rates =>
      let _ := city_choice
      match car_service_vehicle_tier travelers with
      | none => ⟨0, "unsupported", 0, 0, 0, false, false, "n/a"⟩
      | some outbound_tier =>
        let outbound_one_way : ℚ := (rates.lookup outbound_tier).getD 0
        let (return_tier, return_one_way, return_total) :=
          if individual_return_home then
            let rt := "1-3"
            let row : ℚ := (rates.lookup rt).getD 0
            (rt, row, round2 (row * travelers))
          else
            (outbound_tier, (rates.lookup outbound_tier).getD 0,
             round2 ((rates.lookup outbound_tier).getD 0))
        let base_total := round2 (outbound_one_way + return_total)
        let dep_h := is_holiday dep_date
        let ret_h := is_holiday ret_date
        let holiday_fee : ℚ := if dep_h || ret_h then CAR_SERVICE_HOLIDAY_SURCHARGE else 0
        let total := round2 (base_total + holiday_fee)
        ⟨total, outbound_tier, outbound_one_way, return_one_way, return_total,
         dep_h, ret_h, return_tier⟩

/-! ### Per-trip calculation (source lines 398–492)

The script body computes the line items straight-line from the input
widgets; `computeTrip` is that straight-line code as a function.  The
per-traveler flight price `flight_pp` arrives resolved (manual entry, or
`avg_flight_cost` on the fetched offers, lines 401–429); the destination
airport text is normalized by `.strip().upper()` at the input widget
itself (line 358), so `dest_airport` here is that normalized value. -/

/-- The trip parameters the calculation consumes. -/
structure TripInputs where
  travelers : ℕ
  dep_airport : String
  preferred_airline : String
  dest_airport : String
  dep_date : PyDate
  ret_date : PyDate
  include_rental : Bool
  other_fixed : ℚ
  include_car_service : Bool
  car_service_city : Option String
  individual_return_home : Bool
  flight_pp : ℚ
deriving Repr

/-- All computed quantities of one calculation pass. -/
structure TripResult where
  trip_days : ℤ
  trip_nights : ℤ
  flights_total : ℚ
  bag_fee_per_traveler : ℚ
  bags_total : ℚ
  nightly_hotel_rate : ℚ
  hotel_total : ℚ
  meals_total : ℚ
  daily_rental_rate : ℚ
  rental_total : ℚ
  housekeeping_total : ℚ
  fixed_incidentals_total : ℚ
  car : CarServiceResult
  car_service_total : ℚ
  subtotal : ℚ
  contingency : ℚ
  grand_total : ℚ
deriving Repr

/-- The calculation block, lines 398–492 of the source, one `let` per
source line. -/
def computeTrip (i : TripInputs) : TripResult :=
  let trip_days : ℤ := ((toOrdinalNat i.ret_date : ℤ) - (toOrdinalNat i.dep_date : ℤ)) + 1
  let trip_nights : ℤ := max (trip_days - 1) 0
  let flights_total : ℚ := i.flight_pp * (i.travelers : ℚ)
  let bag_fee_per_traveler : ℚ :=
    if i.dest_airport.length = 3 ∧ is_domestic i.dep_airport i.dest_airport then
      (DOMESTIC_BAG_FEE_BY_AIRLINE.lookup i.preferred_airline).getD 70
    else 0
  let bags_total : ℚ := bag_fee_per_traveler * (i.travelers : ℚ)
  let nightly_hotel_rate : ℚ :=
    if i.dest_airport.length = 3 then hotel_rate i.dest_airport
    else DEFAULT_HOTEL_NIGHTLY_RATE
  let hotel_total : ℚ := nightly_hotel_rate * (trip_nights : ℚ) * (i.travelers : ℚ)
  let meals_total : ℚ := MEALS_PER_DAY * (trip_days : ℚ) * (i.travelers : ℚ)
  let daily_rental_rate : ℚ :=
    if i.include_rental ∧ i.dest_airport.length = 3 then hertz_rate i.dest_airport
    else if i.include_rental then hertz_rate i.dep_airport
    else 0
  let rental_total : ℚ := if i.include_rental then daily_rental_rate * (trip_days : ℚ) else 0
  let housekeeping_total : ℚ := HOUSEKEEPING_PER_NIGHT * (trip_nights : ℚ) * (i.travelers : ℚ)
  let fixed_incidentals_total : ℚ :=
    GAS_COST + TOLLS_COST + PARKING_COST + AIRPORT_SHUTTLE_TIPS + housekeeping_total
  let car := estimate_car_service_total i.dep_airport i.travelers i.include_car_service
    i.car_service_city i.dep_date i.ret_date i.individual_return_home
  let car_service_total : ℚ := car.total
  let subtotal : ℚ :=
    flights_total + bags_total + hotel_total + meals_total + rental_total
      + fixed_incidentals_total + car_service_total + i.other_fixed
  let contingency : ℚ := subtotal * CONTINGENCY_RATE
  let grand_total : ℚ := subtotal + contingency
  ⟨trip_days, trip_nights, flights_total, bag_fee_per_traveler, bags_total,
   nightly_hotel_rate, hotel_total, meals_total, daily_rental_rate, rental_total,
   housekeeping_total, fixed_incidentals_total, car, car_service_total,
   subtotal, contingency, grand_total⟩

/-- The daily meal rate the code applies, viewed as a function of the
destination: line 443 computes `meals_total = MEALS_PER_DAY * trip_days *
travelers`, so the rate is the constant `MEALS_PER_DAY` with no dependence
on the destination passed here. -/
def meals_daily_rate (dest : String) : ℚ := MEALS_PER_DAY

/-- Modelled from the spec: the key normalization the spec asserts for the
static rate-table lookups — "case-insensitive key normalization
(uppercase, trimmed)" — applied to the hotel table, for comparison with
the `hotel_rate` of the source, which does not trim. -/
def hotel_rate_specNormalized (dest : String) : ℚ :=
  (HOTEL_BASE_RATE_BY_AIRPORT.lookup (pyStrip (pyUpper dest))).getD DEFAULT_HOTEL_NIGHTLY_RATE

/-! ## Helper lemmas -/

/-- Evaluate `rhe` once the enclosing integer is known. -/
theorem rhe_of_floor (q : ℚ) (f : ℤ) (h1 : (f : ℚ) ≤ q) (h2 : q < f + 1) :
    rhe q = if q - f < 1 / 2 then f else if 1 / 2 < q - f then f + 1
            else if f % 2 = 0 then f else f + 1 := by
  have hf : ⌊q⌋ = f := Int.floor_eq_iff.mpr ⟨h1, by exact_mod_cast h2⟩
  simp only [rhe, hf]

/-- `rhe` fixes integers. -/
theorem rhe_intCast (k : ℤ) : rhe (k : ℚ) = k := by
  rw [rhe_of_floor (k : ℚ) k le_rfl (by norm_num)]
  norm_num

/-- An exact number of cents. -/
def IsCent (q : ℚ) : Prop := ∃ k : ℤ, q = (k : ℚ) / 100

theorem IsCent.round2_eq {q : ℚ} (h : IsCent q) : round2 q = q := by
  obtain ⟨k, rfl⟩ := h
  unfold round2
  rw [div_mul_cancel₀ _ (by norm_num : (100 : ℚ) ≠ 0), rhe_intCast]

theorem IsCent.add {a b : ℚ} (ha : IsCent a) (hb : IsCent b) : IsCent (a + b) := by
  obtain ⟨k, rfl⟩ := ha
  obtain ⟨l, rfl⟩ := hb
  exact ⟨k + l, by push_cast; ring⟩

theorem IsCent.mul_nat {a : ℚ} (ha : IsCent a) (t : ℕ) : IsCent (a * t) := by
  obtain ⟨k, rfl⟩ := ha
  exact ⟨k * t, by push_cast; ring⟩

theorem isCent_num (k : ℤ) : IsCent ((k : ℚ) / 100) := ⟨k, rfl⟩

/-- For a supported airport and tier, the group-return branch of
`estimate_car_service_total`, written out. -/
theorem estimate_group_eq (a : String) (t : ℕ) (city : Option String)
    (dep ret : PyDate) (rates : List (String × ℚ)) (tr : String)
    (hr : CAR_SERVICE_RATES_ONE_WAY.lookup (pyUpper a) = some rates)
    (htr : car_service_vehicle_tier t = some tr) :
    estimate_car_service_total a t true city dep ret false =
      ⟨round2 (round2 ((rates.lookup tr).getD 0 + round2 ((rates.lookup tr).getD 0))
          + (if is_holiday dep || is_holiday ret then CAR_SERVICE_HOLIDAY_SURCHARGE else 0)),
       tr, (rates.lookup tr).getD 0, (rates.lookup tr).getD 0,
       round2 ((rates.lookup tr).getD 0), is_holiday dep, is_holiday ret, tr⟩ := by
  simp only [estimate_car_service_total, hr, htr]
  rfl

/-- For a supported airport and tier, the individual-return branch of
`estimate_car_service_total`, written out. -/
theorem estimate_individual_eq (a : String) (t : ℕ) (city : Option String)
    (dep ret : PyDate) (rates : List (String × ℚ)) (tr : String)
    (hr : CAR_SERVICE_RATES_ONE_WAY.lookup (pyUpper a) = some rates)
    (htr : car_service_vehicle_tier t = some tr) :
    estimate_car_service_total a t true city dep ret true =
      ⟨round2 (round2 ((rates.lookup tr).getD 0 + round2 (((rates.lookup "1-3").getD 0) * t))
          + (if is_holiday dep || is_holiday ret then CAR_SERVICE_HOLIDAY_SURCHARGE else 0)),
       tr, (rates.lookup tr).getD 0, (rates.lookup "1-3").getD 0,
       round2 (((rates.lookup "1-3").getD 0) * t), is_holiday dep, is_holiday ret, "1-3"⟩ := by
  simp only [estimate_car_service_total, hr, htr]
  rfl

/-- A successful airport lookup pins both the key and the rate card. -/
theorem car_rates_lookup_cases (s : String) (rates : List (String × ℚ))
    (h : CAR_SERVICE_RATES_ONE_WAY.lookup s = some rates) :
    (s = "BOS" ∧ rates = [("1-3", 161.76), ("4-5", 229.12), ("6-14", 295)])
    ∨ (s = "MHT" ∧ rates = [("1-3", 97.19), ("4-5", 184.76), ("6-14", 228.54)]) := by
  by_cases h1 : s = "BOS"
  · subst h1
    simp [CAR_SERVICE_RATES_ONE_WAY, List.lookup] at h
    exact Or.inl ⟨rfl, h.symm⟩
  · by_cases h2 : s = "MHT"
    · subst h2
      simp [CAR_SERVICE_RATES_ONE_WAY, List.lookup] at h
      exact Or.inr ⟨rfl, h.symm⟩
    · exfalso
      have e1 : (s == "BOS") = false := beq_eq_false_iff_ne.mpr h1
      have e2 : (s == "MHT") = false := beq_eq_false_iff_ne.mpr h2
      simp [CAR_SERVICE_RATES_ONE_WAY, List.lookup, e1, e2] at h

/-- The only tier labels `car_service_vehicle_tier` produces. -/
theorem tier_cases (t : ℕ) (tr : String) (h : car_service_vehicle_tier t = some tr) :
    tr = "1-3" ∨ tr = "4-5" ∨ tr = "6-14" := by
  unfold car_service_vehicle_tier at h
  split_ifs at h <;> simp_all

/-- The holiday fee is an exact number of cents either way. -/
theorem isCent_surcharge_ite (b : Bool) :
    IsCent (if b then CAR_SERVICE_HOLIDAY_SURCHARGE else 0) := by
  cases b
  · exact ⟨0, by norm_num⟩
  · exact ⟨2500, by norm_num [CAR_SERVICE_HOLIDAY_SURCHARGE]⟩

/-- On exact cent amounts the car-service rounding chain is the identity. -/
theorem round2_cents_sum (x y f : ℚ) (hx : IsCent x) (hy : IsCent y) (hf : IsCent f) :
    round2 (round2 (x + round2 y) + f) = x + round2 y + f := by
  rw [hy.round2_eq, (hx.add hy).round2_eq, ((hx.add hy).add hf).round2_eq]

theorem isCent_16176 : IsCent (161.76 : ℚ) := ⟨16176, by norm_num⟩
theorem isCent_22912 : IsCent (229.12 : ℚ) := ⟨22912, by norm_num⟩
theorem isCent_29500 : IsCent (295 : ℚ) := ⟨29500, by norm_num⟩
theorem isCent_9719 : IsCent (97.19 : ℚ) := ⟨9719, by norm_num⟩
theorem isCent_18476 : IsCent (184.76 : ℚ) := ⟨18476, by norm_num⟩
theorem isCent_22854 : IsCent (228.54 : ℚ) := ⟨22854, by norm_num⟩

/-- For every supported configuration, the car-service total is the
outbound fare plus the return total plus one holiday fee (the fee term
being a single conditional surcharge). -/
theorem car_service_total_split
    (a : String) (t : ℕ) (city : Option String) (dep ret : PyDate) (ind : Bool)
    (ha : (CAR_SERVICE_RATES_ONE_WAY.lookup (pyUpper a)).isSome = true)
    (ht : (car_service_vehicle_tier t).isSome = true) :
    (estimate_car_service_total a t true city dep ret ind).total
      = (estimate_car_service_total a t true city dep ret ind).outbound_one_way
        + (estimate_car_service_total a t true city dep ret ind).return_total
        + (if is_holiday dep || is_holiday ret then CAR_SERVICE_HOLIDAY_SURCHARGE else 0) := by
  obtain ⟨rates, hr⟩ := Option.isSome_iff_exists.mp ha
  obtain ⟨tr, htr⟩ := Option.isSome_iff_exists.mp ht
  rcases car_rates_lookup_cases _ _ hr with ⟨_, hrs⟩ | ⟨_, hrs⟩ <;> subst hrs <;>
    rcases tier_cases _ _ htr with h3 | h3 | h3 <;> subst h3 <;>
    cases ind <;>
    (first
      | rw [estimate_group_eq _ _ city dep ret _ _ hr htr]
      | rw [estimate_individual_eq _ _ city dep ret _ _ hr htr]) <;>
    (first
      | exact round2_cents_sum _ _ _ isCent_16176 isCent_16176 (isCent_surcharge_ite _)
      | exact round2_cents_sum _ _ _ isCent_22912 isCent_22912 (isCent_surcharge_ite _)
      | exact round2_cents_sum _ _ _ isCent_29500 isCent_29500 (isCent_surcharge_ite _)
      | exact round2_cents_sum _ _ _ isCent_9719 isCent_9719 (isCent_surcharge_ite _)
      | exact round2_cents_sum _ _ _ isCent_18476 isCent_18476 (isCent_surcharge_ite _)
      | exact round2_cents_sum _ _ _ isCent_22854 isCent_22854 (isCent_surcharge_ite _)
      | exact round2_cents_sum _ _ _ isCent_16176 (isCent_16176.mul_nat t) (isCent_surcharge_ite _)
      | exact round2_cents_sum _ _ _ isCent_22912 (isCent_16176.mul_nat t) (isCent_surcharge_ite _)
      | exact round2_cents_sum _ _ _ isCent_29500 (isCent_16176.mul_nat t) (isCent_surcharge_ite _)
      | exact round2_cents_sum _ _ _ isCent_9719 (isCent_9719.mul_nat t) (isCent_surcharge_ite _)
      | exact round2_cents_sum _ _ _ isCent_18476 (isCent_9719.mul_nat t) (isCent_surcharge_ite _)
      | exact round2_cents_sum _ _ _ isCent_22854 (isCent_9719.mul_nat t) (isCent_surcharge_ite _))

/-- Every airport code in the known-airports set has three characters. -/
theorem mem_US_AIRPORTS_length (s : String) (h : US_AIRPORTS.contains s = true) :
    s.length = 3 := by
  have hall : US_AIRPORTS.all (fun x => x.length == 3) = true := by decide
  have hmem : s ∈ US_AIRPORTS := by
    simpa using h
  have := List.all_eq_true.mp hall s hmem
  simpa using this

/-- Uppercasing preserves string length. -/
theorem pyUpper_length (s : String) : (pyUpper s).length = s.length := by
  show (s.data.map Char.toUpper).length = s.data.length
  simp

/-! ## Claims -/

/-- C1: for every trip, the subtotal is the sum of the computed line-item
totals (flights, bags, hotel, meals, rental, fixed incidentals, car
service, manual extras), the contingency is `subtotal * CONTINGENCY_RATE`,
and the grand total is exactly `subtotal + subtotal * CONTINGENCY_RATE`
(exact rational arithmetic; no rounding is involved). -/
theorem claim_C1_aggregation (i : TripInputs) :
    (computeTrip i).subtotal
      = (computeTrip i).flights_total + (computeTrip i).bags_total
        + (computeTrip i).hotel_total + (computeTrip i).meals_total
        + (computeTrip i).rental_total + (computeTrip i).fixed_incidentals_total
        + (computeTrip i).car_service_total + i.other_fixed
    ∧ (computeTrip i).contingency = (computeTrip i).subtotal * CONTINGENCY_RATE
    ∧ (computeTrip i).grand_total
        = (computeTrip i).subtotal + (computeTrip i).subtotal * CONTINGENCY_RATE :=
  ⟨rfl, rfl, rfl⟩

/-- C5 (amended): the meals daily rate is the flat constant
`MEALS_PER_DAY` for every destination — the code applies no location-tier
multiplier — and the meals total is `daily_rate * trip_days * travelers`. -/
theorem claim_C5_meals (i : TripInputs) :
    (computeTrip i).meals_total
      = meals_daily_rate i.dest_airport * (((computeTrip i).trip_days : ℤ) : ℚ) * (i.travelers : ℚ)
    ∧ meals_daily_rate i.dest_airport = MEALS_PER_DAY :=
  ⟨rfl, rfl⟩

/-- C5 counterexample: the claimed location-tier factor does not exist —
the meals daily rate of no destination is the base rate scaled by any
multiplier other than 1, so there is no "high-cost" or "mid-tier"
multiplier distinct from the unmodified rate. -/
theorem claim_C5_counterexample :
    ¬ ∃ (m : ℚ) (loc : String), m ≠ 1 ∧ meals_daily_rate loc = MEALS_PER_DAY * m := by
  rintro ⟨m, loc, hm, h⟩
  rw [show meals_daily_rate loc = (100 : ℚ) from rfl,
      show MEALS_PER_DAY = (100 : ℚ) from rfl] at h
  exact hm (by linarith)

/-- C10: the hotel line item is `nightly_rate * trip_nights * travelers`
(one room per traveler), it vanishes on a zero-night trip, and it is
additive (linear) in the traveler count. -/
theorem claim_C10_hotel (i : TripInputs) (a b : ℕ) :
    (computeTrip i).hotel_total
      = (computeTrip i).nightly_hotel_rate * (((computeTrip i).trip_nights : ℤ) : ℚ)
        * (i.travelers : ℚ)
    ∧ ((computeTrip i).trip_nights = 0 → (computeTrip i).hotel_total = 0)
    ∧ (computeTrip { i with travelers := a + b }).hotel_total
        = (computeTrip { i with travelers := a }).hotel_total
          + (computeTrip { i with travelers := b }).hotel_total := by
  refine ⟨rfl, ?_, ?_⟩
  · intro h
    have e : (computeTrip i).hotel_total
        = (computeTrip i).nightly_hotel_rate * (((computeTrip i).trip_nights : ℤ) : ℚ)
          * (i.travelers : ℚ) := rfl
    rw [e, h]
    norm_num
  · show (computeTrip i).nightly_hotel_rate * (((computeTrip i).trip_nights : ℤ) : ℚ)
          * (((a + b : ℕ)) : ℚ)
        = (computeTrip i).nightly_hotel_rate * (((computeTrip i).trip_nights : ℤ) : ℚ) * (a : ℚ)
          + (computeTrip i).nightly_hotel_rate * (((computeTrip i).trip_nights : ℤ) : ℚ) * (b : ℚ)
    push_cast
    ring

/-- C10 witness: a concrete same-day trip has zero hotel cost, and the
hotel total for 5 travelers splits as 2 + 3. -/
theorem claim_C10_witness :
    (computeTrip ⟨1, "BOS", "Delta", "TPA", ⟨2025, 3, 10⟩, ⟨2025, 3, 10⟩, false, 0,
        false, none, false, 0⟩).trip_nights = 0
    ∧ (computeTrip ⟨1, "BOS", "Delta", "TPA", ⟨2025, 3, 10⟩, ⟨2025, 3, 10⟩, false, 0,
        false, none, false, 0⟩).hotel_total = 0
    ∧ (computeTrip ⟨2 + 3, "BOS", "Delta", "TPA", ⟨2025, 3, 10⟩, ⟨2025, 3, 13⟩, false, 0,
        false, none, false, 0⟩).hotel_total
      = (computeTrip ⟨2, "BOS", "Delta", "TPA", ⟨2025, 3, 10⟩, ⟨2025, 3, 13⟩, false, 0,
          false, none, false, 0⟩).hotel_total
        + (computeTrip ⟨3, "BOS", "Delta", "TPA", ⟨2025, 3, 10⟩, ⟨2025, 3, 13⟩, false, 0,
            false, none, false, 0⟩).hotel_total :=
  ⟨by decide,
   (claim_C10_hotel ⟨1, "BOS", "Delta", "TPA", ⟨2025, 3, 10⟩, ⟨2025, 3, 10⟩, false, 0,
      false, none, false, 0⟩ 2 3).2.1 (by decide),
   (claim_C10_hotel ⟨2 + 3, "BOS", "Delta", "TPA", ⟨2025, 3, 10⟩, ⟨2025, 3, 13⟩, false, 0,
      false, none, false, 0⟩ 2 3).2.2⟩

/-- C4 (amended): `trip_days` is `(return − departure).days + 1` with no
clamping — it is at least 1 only when the return date is not before the
departure date (which the date widgets enforce) — while `trip_nights` is
`max(trip_days − 1, 0)` and hence never negative. -/
theorem claim_C4_trip_length (i : TripInputs) :
    (computeTrip i).trip_days
        = ((toOrdinalNat i.ret_date : ℤ) - (toOrdinalNat i.dep_date : ℤ)) + 1
    ∧ (computeTrip i).trip_nights = max ((computeTrip i).trip_days - 1) 0
    ∧ 0 ≤ (computeTrip i).trip_nights
    ∧ (toOrdinalNat i.dep_date ≤ toOrdinalNat i.ret_date → 1 ≤ (computeTrip i).trip_days) := by
  refine ⟨rfl, rfl, le_max_right _ _, ?_⟩
  intro h
  show 1 ≤ ((toOrdinalNat i.ret_date : ℤ) - (toOrdinalNat i.dep_date : ℤ)) + 1
  omega

/-- C4 witness: a 2025-03-10 → 2025-03-13 trip has 4 days and 3 nights. -/
theorem claim_C4_witness :
    toOrdinalNat (⟨2025, 3, 10⟩ : PyDate) ≤ toOrdinalNat (⟨2025, 3, 13⟩ : PyDate)
    ∧ 1 ≤ (computeTrip ⟨2, "BOS", "JetBlue", "TPA", ⟨2025, 3, 10⟩, ⟨2025, 3, 13⟩, true, 0,
        false, none, false, 180⟩).trip_days :=
  ⟨by decide,
   (claim_C4_trip_length ⟨2, "BOS", "JetBlue", "TPA", ⟨2025, 3, 10⟩, ⟨2025, 3, 13⟩, true, 0,
      false, none, false, 180⟩).2.2.2 (by decide)⟩

/-- C4 counterexample: with the return date one day before departure the
code yields `trip_days = 0`, so the claimed clamp `trip_days ≥ 1` does not
hold for every date pair (nights, however, are clamped to 0). -/
theorem claim_C4_counterexample :
    (computeTrip ⟨1, "BOS", "Delta", "TPA", ⟨2025, 3, 11⟩, ⟨2025, 3, 10⟩, false, 0,
        false, none, false, 0⟩).trip_days = 0
    ∧ ¬ (1 ≤ (computeTrip ⟨1, "BOS", "Delta", "TPA", ⟨2025, 3, 11⟩, ⟨2025, 3, 10⟩, false, 0,
        false, none, false, 0⟩).trip_days) := by
  constructor <;> decide

/-- C7: the bags total is the per-traveler fee times the traveler count;
the fee is 0 whenever the route is not domestic, and on a domestic route
it is the entry of the carrier in the bag-fee table with the nonzero default 70
for carriers absent from the table.  (The additional
`len(dest) == 3` guard in the code is redundant: a destination in the known-airports
set necessarily has three characters.) -/
theorem claim_C7_bags (i : TripInputs) :
    (computeTrip i).bags_total = (computeTrip i).bag_fee_per_traveler * (i.travelers : ℚ)
    ∧ (is_domestic i.dep_airport i.dest_airport = false →
        (computeTrip i).bag_fee_per_traveler = 0)
    ∧ (is_domestic i.dep_airport i.dest_airport = true →
        (computeTrip i).bag_fee_per_traveler
          = (DOMESTIC_BAG_FEE_BY_AIRLINE.lookup i.preferred_airline).getD 70
          ∧ (70 : ℚ) ≠ 0) := by
  have e : (computeTrip i).bag_fee_per_traveler
      = (if i.dest_airport.length = 3 ∧ is_domestic i.dep_airport i.dest_airport then
          (DOMESTIC_BAG_FEE_BY_AIRLINE.lookup i.preferred_airline).getD 70
        else 0) := rfl
  refine ⟨rfl, ?_, ?_⟩
  · intro h
    rw [e, if_neg]
    rintro ⟨-, hq⟩
    rw [h] at hq
    exact Bool.false_ne_true hq
  · intro h
    have hlen : i.dest_airport.length = 3 := by
      have hd : US_AIRPORTS.contains (pyUpper i.dest_airport) = true := by
        have := h
        unfold is_domestic at this
        exact (Bool.and_eq_true _ _ |>.mp this).2
      have := mem_US_AIRPORTS_length _ hd
      rwa [pyUpper_length] at this
    rw [e, if_pos ⟨hlen, h⟩]
    exact ⟨rfl, by norm_num⟩

/-- C7 witness: BOS → TPA on JetBlue is domestic (fee 70); BOS → LHR is
not (fee 0). -/
theorem claim_C7_witness :
    is_domestic "BOS" "LHR" = false
    ∧ (computeTrip ⟨2, "BOS", "JetBlue", "LHR", ⟨2025, 3, 10⟩, ⟨2025, 3, 13⟩, false, 0,
        false, none, false, 0⟩).bag_fee_per_traveler = 0
    ∧ is_domestic "BOS" "TPA" = true
    ∧ (computeTrip ⟨2, "BOS", "JetBlue", "TPA", ⟨2025, 3, 10⟩, ⟨2025, 3, 13⟩, false, 0,
        false, none, false, 0⟩).bag_fee_per_traveler
      = (DOMESTIC_BAG_FEE_BY_AIRLINE.lookup "JetBlue").getD 70 :=
  ⟨by decide,
   (claim_C7_bags ⟨2, "BOS", "JetBlue", "LHR", ⟨2025, 3, 10⟩, ⟨2025, 3, 13⟩, false, 0,
      false, none, false, 0⟩).2.1 (by decide),
   by decide,
   ((claim_C7_bags ⟨2, "BOS", "JetBlue", "TPA", ⟨2025, 3, 10⟩, ⟨2025, 3, 13⟩, false, 0,
      false, none, false, 0⟩).2.2 (by decide)).1⟩

/-- C3: at a supported origin and tier, the car-service total is the base
(outbound plus return) plus the fixed holiday surcharge applied exactly
once when either the departure or the return date is a recognized holiday
— a single surcharge even when both dates are holidays — and no surcharge
when neither date is one. -/
theorem claim_C3_holiday_surcharge_once
    (a : String) (t : ℕ) (city : Option String) (dep ret : PyDate) (ind : Bool)
    (ha : (CAR_SERVICE_RATES_ONE_WAY.lookup (pyUpper a)).isSome = true)
    (ht : (car_service_vehicle_tier t).isSome = true) :
    (estimate_car_service_total a t true city dep ret ind).total
      = (estimate_car_service_total a t true city dep ret ind).outbound_one_way
        + (estimate_car_service_total a t true city dep ret ind).return_total
        + (if is_holiday dep || is_holiday ret then CAR_SERVICE_HOLIDAY_SURCHARGE else 0)
    ∧ (is_holiday dep = true → is_holiday ret = true →
        (estimate_car_service_total a t true city dep ret ind).total
          = (estimate_car_service_total a t true city dep ret ind).outbound_one_way
            + (estimate_car_service_total a t true city dep ret ind).return_total
            + CAR_SERVICE_HOLIDAY_SURCHARGE)
    ∧ (is_holiday dep = false → is_holiday ret = false →
        (estimate_car_service_total a t true city dep ret ind).total
          = (estimate_car_service_total a t true city dep ret ind).outbound_one_way
            + (estimate_car_service_total a t true city dep ret ind).return_total) := by
  have key := car_service_total_split a t city dep ret ind ha ht
  refine ⟨key, ?_, ?_⟩
  · intro h1 h2
    rw [key, h1, h2]
    norm_num
  · intro h1 h2
    rw [key, h1, h2]
    norm_num

/-- C3 witness: BOS, 7 travelers, departing Christmas 2025 and returning
New Year 2026 — both holidays — pays the surcharge exactly once. -/
theorem claim_C3_witness :
    (CAR_SERVICE_RATES_ONE_WAY.lookup (pyUpper "BOS")).isSome = true
    ∧ (car_service_vehicle_tier 7).isSome = true
    ∧ is_holiday ⟨2025, 12, 25⟩ = true
    ∧ is_holiday ⟨2026, 1, 1⟩ = true
    ∧ (estimate_car_service_total "BOS" 7 true (some "Nashua, NH")
          ⟨2025, 12, 25⟩ ⟨2026, 1, 1⟩ false).total
      = (estimate_car_service_total "BOS" 7 true (some "Nashua, NH")
            ⟨2025, 12, 25⟩ ⟨2026, 1, 1⟩ false).outbound_one_way
        + (estimate_car_service_total "BOS" 7 true (some "Nashua, NH")
              ⟨2025, 12, 25⟩ ⟨2026, 1, 1⟩ false).return_total
        + CAR_SERVICE_HOLIDAY_SURCHARGE :=
  ⟨rfl, rfl, by decide, by decide,
   (claim_C3_holiday_surcharge_once "BOS" 7 (some "Nashua, NH")
      ⟨2025, 12, 25⟩ ⟨2026, 1, 1⟩ false rfl rfl).2.1 (by decide) (by decide)⟩

/-- C8: a car-service request from an airport outside {BOS, MHT}, or for
more than 14 travelers, yields the explicit unsupported result with zero
cost in every component — a typed result, never an exception and never a
guessed price. -/
theorem claim_C8_unsupported_zero
    (ap : String) (t : ℕ) (city : Option String) (dep ret : PyDate) (ind : Bool) :
    ((pyUpper ap ≠ "BOS" ∧ pyUpper ap ≠ "MHT") →
      estimate_car_service_total ap t true city dep ret ind
        = ⟨0, "unsupported-airport", 0, 0, 0, false, false, "n/a"⟩)
    ∧ ((pyUpper ap = "BOS" ∨ pyUpper ap = "MHT") → 14 < t →
      estimate_car_service_total ap t true city dep ret ind
        = ⟨0, "unsupported", 0, 0, 0, false, false, "n/a"⟩) := by
  constructor
  · rintro ⟨h1, h2⟩
    have e1 : (pyUpper ap == "BOS") = false := beq_eq_false_iff_ne.mpr h1
    have e2 : (pyUpper ap == "MHT") = false := beq_eq_false_iff_ne.mpr h2
    have hn : CAR_SERVICE_RATES_ONE_WAY.lookup (pyUpper ap) = none := by
      simp [CAR_SERVICE_RATES_ONE_WAY, List.lookup, e1, e2]
    simp only [estimate_car_service_total, hn]
    rfl
  · intro h hgt
    have htn : car_service_vehicle_tier t = none := by
      unfold car_service_vehicle_tier
      split_ifs <;> first | rfl | omega
    rcases h with h | h <;> simp only [estimate_car_service_total, h, htn] <;> rfl

/-- C8 witness: JFK is not a supported car-service origin, and 15
travelers exceed the largest tier at BOS; both give the zero-cost
unsupported results. -/
theorem claim_C8_witness :
    estimate_car_service_total "JFK" 3 true (some "Nashua, NH")
        ⟨2025, 3, 10⟩ ⟨2025, 3, 13⟩ false
      = ⟨0, "unsupported-airport", 0, 0, 0, false, false, "n/a"⟩
    ∧ estimate_car_service_total "BOS" 15 true (some "Nashua, NH")
        ⟨2025, 3, 10⟩ ⟨2025, 3, 13⟩ false
      = ⟨0, "unsupported", 0, 0, 0, false, false, "n/a"⟩ :=
  ⟨(claim_C8_unsupported_zero "JFK" 3 (some "Nashua, NH")
      ⟨2025, 3, 10⟩ ⟨2025, 3, 13⟩ false).1 ⟨by decide, by decide⟩,
   (claim_C8_unsupported_zero "BOS" 15 (some "Nashua, NH")
      ⟨2025, 3, 10⟩ ⟨2025, 3, 13⟩ false).2 (Or.inl (by decide)) (by decide)⟩

/-- C6: with a rental requested and a three-letter destination, the daily
rental rate is `round(base * (1 + 0.15) * (1 − 0.12), 2)` with the base
looked up by destination (default 80 when absent, giving 80.96), and the
rental total is the daily rate times the trip days. -/
theorem claim_C6_rental (i : TripInputs)
    (hinc : i.include_rental = true) (h3 : i.dest_airport.length = 3) :
    (computeTrip i).daily_rental_rate
      = round2 (((HERTZ_BASE_DAILY_BY_AIRPORT.lookup (pyUpper i.dest_airport)).getD 80)
          * (1 + HERTZ_SUV_UPLIFT) * (1 - HERTZ_MEMBERSHIP_DISCOUNT))
    ∧ (computeTrip i).rental_total
        = (computeTrip i).daily_rental_rate * (((computeTrip i).trip_days : ℤ) : ℚ)
    ∧ (HERTZ_BASE_DAILY_BY_AIRPORT.lookup (pyUpper i.dest_airport) = none →
        (computeTrip i).daily_rental_rate = 80.96) := by
  have e : (computeTrip i).daily_rental_rate
      = (if i.include_rental ∧ i.dest_airport.length = 3 then hertz_rate i.dest_airport
         else if i.include_rental then hertz_rate i.dep_airport else 0) := rfl
  have hd : (computeTrip i).daily_rental_rate = hertz_rate i.dest_airport := by
    rw [e, if_pos ⟨hinc, h3⟩]
  have er : (computeTrip i).rental_total
      = (if i.include_rental then
          (computeTrip i).daily_rental_rate * (((computeTrip i).trip_days : ℤ) : ℚ) else 0) := rfl
  refine ⟨?_, ?_, ?_⟩
  · rw [hd]
    rfl
  · rw [er, if_pos hinc]
  · intro hnone
    rw [hd]
    unfold hertz_rate
    rw [hnone]
    show round2 ((80 : ℚ) * (1 + HERTZ_SUV_UPLIFT) * (1 - HERTZ_MEMBERSHIP_DISCOUNT)) = 80.96
    rw [show ((80 : ℚ) * (1 + HERTZ_SUV_UPLIFT) * (1 - HERTZ_MEMBERSHIP_DISCOUNT))
          = ((8096 : ℤ) : ℚ) / 100 by norm_num [HERTZ_SUV_UPLIFT, HERTZ_MEMBERSHIP_DISCOUNT]]
    rw [(isCent_num 8096).round2_eq]
    norm_num

/-- C6 witness: destination XNA is absent from the rate table, so the
daily rate is `round(80 * 1.15 * 0.88, 2) = 80.96` and the total is the
daily rate times the trip days. -/
theorem claim_C6_witness :
    (⟨1, "BOS", "Delta", "XNA", ⟨2025, 3, 10⟩, ⟨2025, 3, 13⟩, true, 0,
        false, none, false, 0⟩ : TripInputs).include_rental = true
    ∧ ("XNA" : String).length = 3
    ∧ HERTZ_BASE_DAILY_BY_AIRPORT.lookup (pyUpper "XNA") = none
    ∧ (computeTrip ⟨1, "BOS", "Delta", "XNA", ⟨2025, 3, 10⟩, ⟨2025, 3, 13⟩, true, 0,
        false, none, false, 0⟩).daily_rental_rate = 80.96
    ∧ (computeTrip ⟨1, "BOS", "Delta", "XNA", ⟨2025, 3, 10⟩, ⟨2025, 3, 13⟩, true, 0,
          false, none, false, 0⟩).rental_total
      = (computeTrip ⟨1, "BOS", "Delta", "XNA", ⟨2025, 3, 10⟩, ⟨2025, 3, 13⟩, true, 0,
            false, none, false, 0⟩).daily_rental_rate
        * (((computeTrip ⟨1, "BOS", "Delta", "XNA", ⟨2025, 3, 10⟩, ⟨2025, 3, 13⟩, true, 0,
              false, none, false, 0⟩).trip_days : ℤ) : ℚ) :=
  ⟨rfl, by decide, rfl,
   (claim_C6_rental ⟨1, "BOS", "Delta", "XNA", ⟨2025, 3, 10⟩, ⟨2025, 3, 13⟩, true, 0,
      false, none, false, 0⟩ rfl (by decide)).2.2 rfl,
   (claim_C6_rental ⟨1, "BOS", "Delta", "XNA", ⟨2025, 3, 10⟩, ⟨2025, 3, 13⟩, true, 0,
      false, none, false, 0⟩ rfl (by decide)).2.1⟩

/-- C9 (amended): the static rate-table lookups are total functions of the
key — two keys equal after uppercasing resolve identically (the
normalization is uppercasing only, with no trimming), and a key whose
uppercased form is unmapped always resolves to the declared default rate
(hotel) or to the defaulted discounted rate (rental). -/
theorem claim_C9_lookup_total (key other : String) :
    (pyUpper key = pyUpper other →
      hotel_rate key = hotel_rate other ∧ hertz_rate key = hertz_rate other)
    ∧ (HOTEL_BASE_RATE_BY_AIRPORT.lookup (pyUpper key) = none →
        hotel_rate key = DEFAULT_HOTEL_NIGHTLY_RATE)
    ∧ (HERTZ_BASE_DAILY_BY_AIRPORT.lookup (pyUpper key) = none →
        hertz_rate key
          = round2 ((80 : ℚ) * (1 + HERTZ_SUV_UPLIFT) * (1 - HERTZ_MEMBERSHIP_DISCOUNT))) := by
  refine ⟨?_, ?_, ?_⟩
  · intro h
    unfold hotel_rate hertz_rate
    rw [h]
    exact ⟨rfl, rfl⟩
  · intro h
    unfold hotel_rate
    rw [h]
    rfl
  · intro h
    unfold hertz_rate
    rw [h]
    rfl

/-- C9 witness: the key "xNa" normalizes to the unmapped key "XNA", so
both lookups hit their defaults and agree with the uppercased key. -/
theorem claim_C9_witness :
    pyUpper "xNa" = pyUpper "XNA"
    ∧ HOTEL_BASE_RATE_BY_AIRPORT.lookup (pyUpper "xNa") = none
    ∧ HERTZ_BASE_DAILY_BY_AIRPORT.lookup (pyUpper "xNa") = none
    ∧ (hotel_rate "xNa" = hotel_rate "XNA" ∧ hertz_rate "xNa" = hertz_rate "XNA")
    ∧ hotel_rate "xNa" = DEFAULT_HOTEL_NIGHTLY_RATE
    ∧ hertz_rate "xNa"
        = round2 ((80 : ℚ) * (1 + HERTZ_SUV_UPLIFT) * (1 - HERTZ_MEMBERSHIP_DISCOUNT)) :=
  ⟨rfl, rfl, rfl,
   (claim_C9_lookup_total "xNa" "XNA").1 rfl,
   (claim_C9_lookup_total "xNa" "XNA").2.1 rfl,
   (claim_C9_lookup_total "xNa" "XNA").2.2 rfl⟩

/-- C9 counterexample: the lookups do not trim — the key `" bos "`, which
the uppercase-and-trim normalization of the spec would resolve to the BOS
rate 260, instead falls through to the default 190. -/
theorem claim_C9_counterexample :
    hotel_rate " bos " = 190
    ∧ hotel_rate_specNormalized " bos " = 260
    ∧ hotel_rate " bos " ≠ hotel_rate_specNormalized " bos " := by
  have h1 : hotel_rate " bos " = (190 : ℚ) := rfl
  have h2 : hotel_rate_specNormalized " bos " = (260 : ℚ) := rfl
  refine ⟨h1, h2, ?_⟩
  rw [h1, h2]
  norm_num

/-- If one pass of the collection loop yields no price at all, the
preferred-carrier pass yields none either. -/
theorem collectPrices_snd_nil (pc : Option String) (l : List Offer)
    (h : (collectPrices pc l).1 = []) : (collectPrices pc l).2 = [] := by
  induction l with
  | nil => rfl
  | cons o rest ih =>
    cases hp : o.price with
    | none =>
      simp only [collectPrices, hp] at h ⊢
      exact ih h
    | some p =>
      simp only [collectPrices, hp] at h
      exact (List.cons_ne_nil _ _ h).elim

/-- C2 (amended): over any fetched offer list, a price takes part iff it
parses (the code applies no non-negativity check); when the
preferred-carrier pass has at least one parsed price the resolver reports
`"preferred"` with the arithmetic mean of only the prices of that pass
(independent of the prices of other carriers in the combined query);
otherwise, with any parsed price present it reports `"fallback_all"` with
the arithmetic mean of all parsed prices; with none (including an empty
offer list) it reports `"none"`.  The source rounds the returned mean to
cents (see `avg_flight_cost`). -/
theorem claim_C2_fare_fallback (offers : List Offer) (preferred_airline : String) :
    ((collectPrices (AIRLINE_CODES.lookup preferred_airline) offers).2 ≠ [] →
        avg_flight_cost offers preferred_airline
          = (some (qmean
              (collectPrices (AIRLINE_CODES.lookup preferred_airline) offers).2),
             "preferred"))
    ∧ ((collectPrices (AIRLINE_CODES.lookup preferred_airline) offers).2 = [] →
        (collectPrices (AIRLINE_CODES.lookup preferred_airline) offers).1 ≠ [] →
        avg_flight_cost offers preferred_airline
          = (some (qmean
              (collectPrices (AIRLINE_CODES.lookup preferred_airline) offers).1),
             "fallback_all"))
    ∧ ((collectPrices (AIRLINE_CODES.lookup preferred_airline) offers).1 = [] →
        avg_flight_cost offers preferred_airline = (none, "none")) := by
  cases offers with
  | nil =>
    refine ⟨?_, ?_, ?_⟩
    · intro h
      exact absurd rfl h
    · intro _ h
      exact absurd rfl h
    · intro _
      rfl
  | cons o rest =>
    refine ⟨?_, ?_, ?_⟩
    · intro h
      have h2 : ((collectPrices (AIRLINE_CODES.lookup preferred_airline)
          (o :: rest)).2).isEmpty = false := by
        cases hx : (collectPrices (AIRLINE_CODES.lookup preferred_airline) (o :: rest)).2 with
        | nil => exact absurd hx h
        | cons a l => rfl
      simp [avg_flight_cost, h2]
    · intro h2 h1
      have e2 : ((collectPrices (AIRLINE_CODES.lookup preferred_airline)
          (o :: rest)).2).isEmpty = true := by
        rw [h2]
        rfl
      have e1 : ((collectPrices (AIRLINE_CODES.lookup preferred_airline)
          (o :: rest)).1).isEmpty = false := by
        cases hx : (collectPrices (AIRLINE_CODES.lookup preferred_airline) (o :: rest)).1 with
        | nil => exact absurd hx h1
        | cons a l => rfl
      simp [avg_flight_cost, e2, e1]
    · intro h1
      have h2 := collectPrices_snd_nil _ _ h1
      have e1 : ((collectPrices (AIRLINE_CODES.lookup preferred_airline)
          (o :: rest)).1).isEmpty = true := by
        rw [h1]
        rfl
      have e2 : ((collectPrices (AIRLINE_CODES.lookup preferred_airline)
          (o :: rest)).2).isEmpty = true := by
        rw [h2]
        rfl
      simp [avg_flight_cost, e1, e2]

/-- C2 witness: the scenario given in the spec — preferred carrier JetBlue has no
offers, three generic offers at 150/180/210 → `"fallback_all"` at the 180
mean. -/
theorem claim_C2_witness :
    (collectPrices (AIRLINE_CODES.lookup "JetBlue")
        [⟨some 150, some ["DL"], none⟩, ⟨some 180, some ["AA"], none⟩,
         ⟨some 210, some ["UA"], none⟩]).2 = []
    ∧ (collectPrices (AIRLINE_CODES.lookup "JetBlue")
        [⟨some 150, some ["DL"], none⟩, ⟨some 180, some ["AA"], none⟩,
         ⟨some 210, some ["UA"], none⟩]).1 ≠ []
    ∧ avg_flight_cost
        [⟨some 150, some ["DL"], none⟩, ⟨some 180, some ["AA"], none⟩,
         ⟨some 210, some ["UA"], none⟩] "JetBlue"
      = (some 180, "fallback_all") := by
  have h := (claim_C2_fare_fallback
    [⟨some 150, some ["DL"], none⟩, ⟨some 180, some ["AA"], none⟩,
     ⟨some 210, some ["UA"], none⟩] "JetBlue").2.1 rfl (by decide)
  rw [show (collectPrices (AIRLINE_CODES.lookup "JetBlue")
        [⟨some 150, some ["DL"], none⟩, ⟨some 180, some ["AA"], none⟩,
         ⟨some 210, some ["UA"], none⟩]).1 = [(150 : ℚ), 180, 210] from rfl] at h
  have hq : qmean [(150 : ℚ), 180, 210] = 180 := by
    simp [qmean]
    norm_num
  rw [hq] at h
  exact ⟨rfl, by decide, h⟩

/-- C2 counterexample: a single preferred-carrier offer whose price
parses to −100 leaves no usable price in the sense of the spec — the
claim then requires the result `unavailable` — yet the code resolves to
source `"preferred"` with the negative price −100.  The mean of one exact
integer is computed exactly by the double pipeline too (`float("-100")`
is exact and `round(-100.0, 2) = -100.0`), so the traced value involves
no rounding subtlety. -/
theorem claim_C2_counterexample :
    usable_prices_spec [⟨some (-100), some ["DL"], none⟩] = []
    ∧ avg_flight_cost [⟨some (-100), some ["DL"], none⟩] "Delta"
      = (some (-100), "preferred") := by
  have hq : qmean [(-100 : ℚ)] = -100 := by
    simp [qmean]
  constructor
  · simp only [usable_prices_spec, List.filterMap_cons, List.filterMap_nil]
    norm_num
  · show (some (qmean [(-100 : ℚ)]), "preferred") = (some (-100 : ℚ), "preferred")
    rw [hq]

end Miip
